import Mathlib

set_option maxRecDepth 100000

/-!
Verification development for the ResumeXpert analysis pipeline (src/app.py).

The development embeds, as executable Lean functions,
* the JSON deserialization performed by `json.loads` on the model response
  (restricted to the `str` input type and default decoder options, as used
  at app.py line 109),
* the field extraction with defaults (`result.get(...)`, app.py lines 116-134),
* the PDF text adapter `input_pdf_text` (app.py lines 31-38),
* the completion wrapper `get_groq_response` (app.py lines 18-29),
* the prompt template and the `str.format` substitution (app.py lines 41-60
  and 100), and
* the submit-handler control flow (app.py lines 85-147).

External collaborators (the Streamlit UI, the PDF library internals, the
network call itself) are modelled by their observable outcomes: a page list
or read failure for the PDF reader, and an API-error-or-choice-list outcome
for the chat completion endpoint.
-/

namespace ResumeXpert

/-- A JSON value as produced by Python `json.loads` with default options.
Integer literals become Python `int` (constructor `num`); literals with a
fraction or exponent, and the non-standard `NaN`/`Infinity`/`-Infinity`
constants, become Python `float`, which we keep symbolically as the source
literal (constructor `numFloat`) since no claim depends on float arithmetic.
Objects keep their members in parse order; duplicate keys are resolved at
lookup time the way a Python `dict` built by repeated assignment resolves
them (the last binding wins, see `dictGet`). -/
inductive JsonValue where
  | null
  | bool (b : Bool)
  | num (n : Int)
  | numFloat (lit : String)
  | str (s : String)
  | arr (items : List JsonValue)
  | obj (members : List (String × JsonValue))
deriving Repr

/-- JSON whitespace skipped by the Python decoder: space, tab, LF, CR. -/
def isJsonWs (c : Char) : Bool :=
  c = ' ' || c = '\t' || c = '\n' || c = '\r'

/-- Drop leading JSON whitespace. -/
def skipWs : List Char → List Char
  | [] => []
  | c :: cs => if isJsonWs c then skipWs cs else c :: cs

/-- Value of one hexadecimal digit, as accepted in a `\uXXXX` escape. -/
def hexVal (c : Char) : Option Nat :=
  if '0' ≤ c ∧ c ≤ '9' then some (c.toNat - 48)
  else if 'a' ≤ c ∧ c ≤ 'f' then some (c.toNat - 87)
  else if 'A' ≤ c ∧ c ≤ 'F' then some (c.toNat - 55)
  else none

/-- Value of a four-digit hexadecimal escape body. -/
def hex4 (a b c d : Char) : Option Nat :=
  match hexVal a, hexVal b, hexVal c, hexVal d with
  | some x, some y, some z, some w => some (((x * 16 + y) * 16 + z) * 16 + w)
  | _, _, _, _ => none

/-- Translation of a single-character escape (`\"`, `\\`, `\/`, `\b`, `\f`,
`\n`, `\r`, `\t`); anything else is a decode error in strict mode. -/
def escChar (c : Char) : Option Char :=
  if c = '"' then some '"'
  else if c = '\\' then some '\\'
  else if c = '/' then some '/'
  else if c = 'b' then some '\x08'
  else if c = 'f' then some '\x0c'
  else if c = 'n' then some '\n'
  else if c = 'r' then some '\r'
  else if c = 't' then some '\t'
  else none

/-- Body of a JSON string literal, after the opening quote: accumulates the
decoded characters (in reverse) and returns the decoded string together with
the input remaining after the closing quote.  Mirrors the strict-mode
`py_scanstring`: unescaped control characters below 0x20 are rejected, a
`\uXXXX` high surrogate immediately followed by a `\uXXXX` low surrogate is
combined into one code point.  (A lone surrogate, which Python keeps as a
surrogate code unit inside `str`, falls outside Lean `Char` scalar values and
is mapped through `Char.ofNat`'s fallback; no claim exercises that corner.) -/
def parseJStringAux : Nat → List Char → List Char → Option (String × List Char)
  | 0, _, _ => none
  | _ + 1, _, [] => none
  | _ + 1, acc, '"' :: rest => some (String.mk acc.reverse, rest)
  | fuel + 1, acc, '\\' :: 'u' :: h1 :: h2 :: h3 :: h4 :: rest =>
    (match hex4 h1 h2 h3 h4 with
     | none => none
     | some n =>
       if 0xD800 ≤ n ∧ n < 0xDC00 then
         match rest with
         | '\\' :: 'u' :: g1 :: g2 :: g3 :: g4 :: rest2 =>
           (match hex4 g1 g2 g3 g4 with
            | none => none
            | some m =>
              if 0xDC00 ≤ m ∧ m < 0xE000 then
                parseJStringAux fuel
                  (Char.ofNat (0x10000 + (n - 0xD800) * 0x400 + (m - 0xDC00)) :: acc) rest2
              else
                parseJStringAux fuel (Char.ofNat n :: acc) rest)
         | '\\' :: 'u' :: _ => none
         | _ => parseJStringAux fuel (Char.ofNat n :: acc) rest
       else
         parseJStringAux fuel (Char.ofNat n :: acc) rest)
  | _ + 1, _, '\\' :: 'u' :: _ => none
  | fuel + 1, acc, '\\' :: e :: rest =>
    (match escChar e with
     | some c => parseJStringAux fuel (c :: acc) rest
     | none => none)
  | _ + 1, _, ['\\'] => none
  | fuel + 1, acc, c :: rest =>
    if c.toNat < 32 then none else parseJStringAux fuel (c :: acc) rest

/-- Body of a JSON string literal, after the opening quote (see
`parseJStringAux`); the fuel covers one decrement per consumed character. -/
def parseJString (acc : List Char) (cs : List Char) : Option (String × List Char) :=
  parseJStringAux (cs.length + 1) acc cs

/-- Integer part of a JSON number (`0`, or a nonzero digit followed by
digits), exactly the group `(?:0|[1-9]\d+|[1-9])` of the decoder's
`NUMBER_RE`; returns the matched digits and the rest. -/
def parseIntPart : List Char → Option (List Char × List Char)
  | [] => none
  | '0' :: rest => some (['0'], rest)
  | c :: rest =>
    if c.isDigit then
      let p := rest.span Char.isDigit
      some (c :: p.1, p.2)
    else none

/-- Digits of an accumulated literal read as a nonnegative integer. -/
def digitsToNat (ds : List Char) : Nat :=
  ds.foldl (fun a c => a * 10 + (c.toNat - 48)) 0

/-- A JSON number, following `NUMBER_RE = (-?(?:0|[1-9]\d*))(\.\d+)?([eE][-+]?\d+)?`:
an optional minus sign and integer part, then an optional fraction and an
optional exponent.  A plain integer literal is a Python `int`; a fraction or
exponent makes it a Python `float`, kept as the matched literal text.  As with
the regex, a partial match (e.g. `1.` or `1e`) consumes only the valid
prefix, leaving the offending characters to fail in the surrounding
context. -/
def parseNumber (cs : List Char) : Option (JsonValue × List Char) :=
  let sign : Bool × List Char :=
    match cs with
    | '-' :: r => (true, r)
    | _ => (false, cs)
  match parseIntPart sign.2 with
  | none => none
  | some (ip, rest1) =>
    let frac : Option (List Char) × List Char :=
      match rest1 with
      | '.' :: r =>
        let p := r.span Char.isDigit
        if p.1.isEmpty then (none, rest1) else (some p.1, p.2)
      | _ => (none, rest1)
    let ex : Option (List Char) × List Char :=
      match frac.2 with
      | e :: r =>
        if e = 'e' ∨ e = 'E' then
          let sr : List Char × List Char :=
            match r with
            | '+' :: rr => (['+'], rr)
            | '-' :: rr => (['-'], rr)
            | _ => ([], r)
          let p := sr.2.span Char.isDigit
          if p.1.isEmpty then (none, frac.2) else (some (e :: sr.1 ++ p.1), p.2)
        else (none, frac.2)
      | [] => (none, frac.2)
    match frac.1, ex.1 with
    | none, none =>
      let v : Int := Int.ofNat (digitsToNat ip)
      some (.num (if sign.1 then -v else v), frac.2)
    | f, x =>
      let lit := String.mk
        ((if sign.1 then ['-'] else []) ++ ip ++
          (match f with | some ds => '.' :: ds | none => []) ++
          (match x with | some es => es | none => []))
      some (.numFloat lit, ex.2)

mutual

/-- One JSON value at the head of the input, returning it with the rest of
the input.  Fuel-indexed recursive descent over the decoder's grammar:
objects, arrays, strings, `true`/`false`/`null`, the default-enabled
constants `NaN`, `Infinity`, `-Infinity`, and numbers.  The fuel only bounds
nesting and member counts; `json_loads` supplies more than enough. -/
def parseValue : Nat → List Char → Option (JsonValue × List Char)
  | 0, _ => none
  | fuel + 1, cs =>
    match cs with
    | '{' :: rest =>
      (match skipWs rest with
       | '}' :: r2 => some (.obj [], r2)
       | cs2 => parseMembers fuel cs2 [])
    | '[' :: rest =>
      (match skipWs rest with
       | ']' :: r2 => some (.arr [], r2)
       | cs2 => parseItems fuel cs2 [])
    | '"' :: rest => (parseJString [] rest).map (fun p => (.str p.1, p.2))
    | 't' :: 'r' :: 'u' :: 'e' :: rest => some (.bool true, rest)
    | 'f' :: 'a' :: 'l' :: 's' :: 'e' :: rest => some (.bool false, rest)
    | 'n' :: 'u' :: 'l' :: 'l' :: rest => some (.null, rest)
    | 'N' :: 'a' :: 'N' :: rest => some (.numFloat "NaN", rest)
    | 'I' :: 'n' :: 'f' :: 'i' :: 'n' :: 'i' :: 't' :: 'y' :: rest =>
      some (.numFloat "Infinity", rest)
    | '-' :: 'I' :: 'n' :: 'f' :: 'i' :: 'n' :: 'i' :: 't' :: 'y' :: rest =>
      some (.numFloat "-Infinity", rest)
    | cs' => parseNumber cs'

/-- Members of a JSON object, after the opening brace and any whitespace,
when the object is not empty: a quoted key, a colon, a value, then either a
comma and further members or the closing brace.  `acc` holds the members
already read, in input order. -/
def parseMembers : Nat → List Char → List (String × JsonValue) →
    Option (JsonValue × List Char)
  | 0, _, _ => none
  | fuel + 1, cs, acc =>
    match cs with
    | '"' :: rest =>
      (match parseJString [] rest with
       | none => none
       | some (k, rest2) =>
         match skipWs rest2 with
         | ':' :: rest3 =>
           (match parseValue fuel (skipWs rest3) with
            | none => none
            | some (v, rest4) =>
              match skipWs rest4 with
              | ',' :: rest5 => parseMembers fuel (skipWs rest5) (acc ++ [(k, v)])
              | '}' :: rest5 => some (.obj (acc ++ [(k, v)]), rest5)
              | _ => none)
         | _ => none)
    | _ => none

/-- Items of a JSON array, after the opening bracket and any whitespace,
when the array is not empty. -/
def parseItems : Nat → List Char → List JsonValue → Option (JsonValue × List Char)
  | 0, _, _ => none
  | fuel + 1, cs, acc =>
    match parseValue fuel cs with
    | none => none
    | some (v, rest) =>
      match skipWs rest with
      | ',' :: rest2 => parseItems fuel (skipWs rest2) (acc ++ [v])
      | ']' :: rest2 => some (.arr (acc ++ [v]), rest2)
      | _ => none

end

/-- `json.loads` on a `str` argument with the default decoder: skip leading
whitespace, read one value, skip trailing whitespace, and fail (raising
`json.JSONDecodeError` in Python, `none` here) on any syntax error or on
extra data after the value. -/
def json_loads (s : String) : Option JsonValue :=
  match parseValue (2 * s.length + 2) (skipWs s.data) with
  | none => none
  | some (v, rest) => if skipWs rest = [] then some v else none

/-- `d.get(k, default)` on a Python `dict` built by assigning the parsed
object's members in order: the last binding for a key wins; `none` means the
key is absent (the caller then uses its default). -/
def dictGet (kvs : List (String × JsonValue)) (k : String) : Option JsonValue :=
  kvs.foldl (fun acc kv => if kv.1 = k then some kv.2 else acc) none

/-- The four values the submit handler extracts from the parsed response
(app.py lines 116, 118, 123, 134).  No type is enforced: each field holds
whatever `JsonValue` the object carried under the key, or the literal
default passed to `.get`. -/
structure AnalysisReport where
  matchPercentage : JsonValue
  missingKeywords : JsonValue
  profileSummary : JsonValue
  suggestions : JsonValue
deriving Repr

/-- The default shown when `"ProfileSummary"` is absent (app.py line 123). -/
def defaultProfileSummary : String := "No summary provided"

/-- Field extraction from a successfully parsed JSON object:
`result.get("JD Match", "N/A")`, `result.get("MissingKeywords", [])`,
`result.get("ProfileSummary", "No summary provided")`,
`result.get("Suggestions", [])`. -/
def mkReport (kvs : List (String × JsonValue)) : AnalysisReport :=
  AnalysisReport.mk
    ((dictGet kvs "JD Match").getD (.str "N/A"))
    ((dictGet kvs "MissingKeywords").getD (.arr []))
    ((dictGet kvs "ProfileSummary").getD (.str defaultProfileSummary))
    ((dictGet kvs "Suggestions").getD (.arr []))

/-- Observable outcome of the `try: result = json.loads(response) ...`
block (app.py lines 107-147) as far as parsing is concerned.
* `report`: `json.loads` produced a `dict` and the four fields were
  extracted.
* `malformed`: `json.loads` raised `json.JSONDecodeError`; the handler's
  `except` branch reports the failure and shows the raw response text
  unchanged (`st.code(response)`).
* `attributeError`: `json.loads` succeeded but produced a non-`dict` value
  (array or scalar); `result.get("JD Match", "N/A")` then raises
  `AttributeError`, which no `except` clause catches — the submission dies
  with an uncaught fault. -/
inductive ParseOutcome where
  | report (r : AnalysisReport)
  | malformed (raw : String)
  | attributeError
deriving Repr

/-- The parse step of the submit handler applied to the raw response text. -/
def parseStep (raw : String) : ParseOutcome :=
  match json_loads raw with
  | none => .malformed raw
  | some (.obj kvs) => .report (mkReport kvs)
  | some _ => .attributeError

/-! ## PDF text extraction adapter (app.py lines 31-38) -/

/-- Observable behaviour of the PDF collaborator on the uploaded file:
either reading raises (corrupt/unsupported document — `readError`), or it
yields a page list whose `extract_text()` results are `some` text or `none`
(PyPDF2 may return `None` for a page). -/
inductive PdfFile where
  | readError
  | pages (ps : List (Option String))

/-- Whitespace stripped by Python `str.strip()` (the ASCII part; the claims
only exercise these characters). -/
def isPySpace (c : Char) : Bool :=
  c = ' ' || c = '\t' || c = '\n' || c = '\r' || c = '\x0b' || c = '\x0c'

/-- Python `str.strip()`: drop leading and trailing whitespace. -/
def pyStrip (s : String) : String :=
  String.mk (((s.data.dropWhile isPySpace).reverse.dropWhile isPySpace).reverse)

/-- `"".join(page.extract_text() or "" for page in reader.pages)`:
per-page `None` becomes `""`, pages are concatenated in order. -/
def concatPages (ps : List (Option String)) : String :=
  String.join (ps.map (fun p => p.getD ""))

/-- `input_pdf_text`: on a read error the `except` branch returns `None`;
otherwise `return text.strip() if text else None` — the empty concatenation
is falsy and yields `None`, any non-empty concatenation (even pure
whitespace) is stripped and returned as a string. -/
def input_pdf_text : PdfFile → Option String
  | .readError => none
  | .pages ps =>
    let text := concatPages ps
    if text = "" then none else some (pyStrip text)

/-! ## Completion client wrapper (app.py lines 18-29) -/

/-- Observable behaviour of the chat-completion endpoint on one request:
the call raises (network/auth/quota — `apiError`) or returns a response
carrying a list of choice contents. -/
inductive GroqOutcome where
  | apiError
  | completion (choices : List String)

/-- `get_groq_response`: returns `chat_completion.choices[0].message.content`;
the bare `except Exception` converts both an API error and the `IndexError`
from an empty `choices` list into `None`. -/
def get_groq_response : GroqOutcome → Option String
  | .apiError => none
  | .completion [] => none
  | .completion (c :: _) => some c

/-! ## Prompt template and `str.format` substitution (app.py lines 41-60, 100) -/

/-- A token of a format template: a literal piece, or a replacement field
to be filled from the keyword arguments. -/
inductive FmtToken where
  | lit (s : String)
  | field (name : String)

/-- Tokenization phase of Python `str.format` on the template (restricted to
the constructs this template uses: plain named fields without conversion or
format spec).  `mode = none`: scanning literal text, where `\x7b\x7b` and
`\x7d\x7d` denote one literal brace, a single `\x7d` raises `ValueError`,
and a single `\x7b` opens a replacement field.  `mode = some acc`: inside a
field name accumulated in reverse in `acc`, closed by `\x7d`.  `none` as a
result models the `ValueError` Python raises on an unbalanced brace or an
unterminated field. -/
def tokenizeFmt : Option (List Char) → List Char → Option (List FmtToken)
  | none, [] => some []
  | none, '{' :: '{' :: rest => (tokenizeFmt none rest).map (fun ts => .lit "\x7b" :: ts)
  | none, '}' :: '}' :: rest => (tokenizeFmt none rest).map (fun ts => .lit "\x7d" :: ts)
  | none, '}' :: _ => none
  | none, '{' :: rest => tokenizeFmt (some []) rest
  | none, c :: rest => (tokenizeFmt none rest).map (fun ts => .lit c.toString :: ts)
  | some _, [] => none
  | some acc, '}' :: rest =>
    (tokenizeFmt none rest).map (fun ts => .field (String.mk acc.reverse) :: ts)
  | some _, '{' :: _ => none
  | some acc, c :: rest => tokenizeFmt (some (c :: acc)) rest

/-- Substitution phase of `str.format`: literal pieces pass through, each
field is looked up among the keyword arguments; `none` models the `KeyError`
Python raises for an unknown field name.  Substituted values are spliced in
verbatim — they are never re-scanned for braces. -/
def renderFmt (env : String → Option String) : List FmtToken → Option String
  | [] => some ""
  | .lit s :: ts => (renderFmt env ts).map (fun r => s ++ r)
  | .field n :: ts =>
    match env n with
    | none => none
    | some v => (renderFmt env ts).map (fun r => v ++ r)

/-- `tmpl.format(**kwargs)`: tokenize the template, then substitute.
`none` collects the `ValueError`/`KeyError` failure modes. -/
def pyFormat (tmpl : String) (env : String → Option String) : Option String :=
  (tokenizeFmt none tmpl.data).bind (renderFmt env)

/-- The fixed prompt template `input_prompt` of app.py lines 41-60,
transcribed byte for byte (braces written as `\x7b`/`\x7d` escapes; note the
doubled braces of the instructional JSON skeleton and the two replacement
fields `text` and `jd`). -/
def input_prompt : String :=
  "\nAct as an ATS (Application Tracking System) specializing in technical roles (Software Engineering, Data Science, Data Analysis, Big Data Engineering).\nAnalyze the following:\n\nResume: \x7btext\x7d\nJob Description: \x7bjd\x7d\n\n**STRICT INSTRUCTIONS:**  \n- Respond **only** in valid JSON format (no extra text).  \n- Ensure the response starts with `\x7b\x7b` and ends with `\x7d\x7d`.  \n- If no data, return an empty list `[]` or `\"N/A\"`.  \n\nReturn the response in **this exact JSON structure**:\n\x7b\x7b\n  \"JD Match\": \"X%\",\n  \"MissingKeywords\": [\"keyword1\", \"keyword2\", ...],\n  \"ProfileSummary\": \"summary text\",\n  \"Suggestions\": [\"suggestion1\", \"suggestion2\", ...]\n\x7d\x7d\n"

/-- The keyword arguments of `input_prompt.format(text=text, jd=jd)`. -/
def formatMap (text jd : String) : String → Option String :=
  fun k => if k = "text" then some text else if k = "jd" then some jd else none

/-- `input_prompt.format(text=text, jd=jd)` (app.py line 100). -/
def formatPrompt (text jd : String) : Option String :=
  pyFormat input_prompt (formatMap text jd)

/-! ## Submit-handler control flow (app.py lines 85-147) -/

/-- Observable outcome of one submission.
* `jdWarning` / `fileWarning`: the preliminary input checks stop the run.
* `extractionError`: `input_pdf_text` returned `None`.
* `formatCrash`: `str.format` raised; modelled for fidelity, proved
  unreachable for this template.
* `completionError`: `get_groq_response` returned `None`.
* `result o`: the run reached the parse step with outcome `o`. -/
inductive PipelineOutcome where
  | jdWarning
  | fileWarning
  | extractionError
  | formatCrash
  | completionError
  | result (o : ParseOutcome)

/-- The handler's tail after text extraction succeeded: compile the prompt,
call the completion client, parse the response. -/
def afterExtraction (text jd : String) (groq : String → GroqOutcome) : PipelineOutcome :=
  match formatPrompt text jd with
  | none => .formatCrash
  | some prompt =>
    match get_groq_response (groq prompt) with
    | none => .completionError
    | some response => .result (parseStep response)

/-- The submit handler: `if not jd.strip()` warning, missing-file warning,
extraction with `None` check, then `afterExtraction`.  The completion
collaborator is passed as a function from the compiled prompt to the
endpoint's observable outcome. -/
def submitHandler (jd : String) (uploaded : Option PdfFile)
    (groq : String → GroqOutcome) : PipelineOutcome :=
  if pyStrip jd = "" then .jdWarning
  else
    match uploaded with
    | none => .fileWarning
    | some f =>
      match input_pdf_text f with
      | none => .extractionError
      | some text => afterExtraction text jd groq

/-! ## Concrete raw-response texts used by the specification's scenarios -/

/-- The complete well-formed response of Scenario 1. -/
def scenario1Raw : String :=
  "\x7b\"JD Match\": \"85%\", \"MissingKeywords\": [\"Kubernetes\",\"gRPC\"], \"ProfileSummary\": \"Strong backend profile.\", \"Suggestions\": [\"Add cloud certs\"]\x7d"

/-- The partial response of Scenario 2 (only `"JD Match"` present). -/
def scenario2Raw : String := "\x7b\"JD Match\": \"40%\"\x7d"

/-- The syntactically invalid response of Scenario 3. -/
def scenario3Raw : String := "not json at all"

/-- A response that is valid JSON but a JSON array, not an object. -/
def jsonArrayRaw : String := "[]"

/-! ## Helper lemmas -/

/-- Dropping with a predicate every element satisfies drops everything. -/
theorem dropWhile_all (p : Char → Bool) (cs : List Char) (h : cs.all p = true) :
    cs.dropWhile p = [] := by
  induction cs with
  | nil => rfl
  | cons c cs ih =>
    rw [List.all_cons, Bool.and_eq_true] at h
    simp [List.dropWhile, h.1, ih h.2]

/-- `str.strip()` of a pure-whitespace string is the empty string. -/
theorem pyStrip_eq_empty (s : String) (h : s.data.all isPySpace = true) :
    pyStrip s = "" := by
  simp [pyStrip, dropWhile_all isPySpace s.data h]

/-- Substitution into the fixed prompt template always succeeds: the
template tokenizes (its skeleton braces are doubled), and its only
replacement fields are `text` and `jd`, both of which the call supplies. -/
theorem formatPrompt_isSome (text jd : String) : ∃ s, formatPrompt text jd = some s :=
  ⟨_, rfl⟩

/-- After a successful extraction the handler can no longer report the
extraction error: formatting succeeds and both completion outcomes map to
other constructors. -/
theorem afterExtraction_not_extractionError (text jd : String)
    (g : String → GroqOutcome) :
    afterExtraction text jd g ≠ PipelineOutcome.extractionError := by
  obtain ⟨s, hs⟩ := formatPrompt_isSome text jd
  unfold afterExtraction
  rw [hs]
  cases h : get_groq_response (g s) <;> simp [h]

/-! ## Claims -/

/-- C1, counterexample: the raw text `[]` is not a JSON object (it is a
valid JSON array), yet the parse step does not return the MalformedResponse
outcome — `json.loads` succeeds and the subsequent `result.get` raises an
uncaught `AttributeError`. -/
theorem c1_counterexample :
    json_loads jsonArrayRaw = some (JsonValue.arr []) ∧
    parseStep jsonArrayRaw = ParseOutcome.attributeError ∧
    parseStep jsonArrayRaw ≠ ParseOutcome.malformed jsonArrayRaw :=
  ⟨rfl, rfl, fun h =>
    ParseOutcome.noConfusion
      (show ParseOutcome.attributeError = ParseOutcome.malformed jsonArrayRaw from h)⟩

/-- C1, amended: for every input string that fails JSON parsing the parse
step returns the MalformedResponse failure preserving the original raw text
unmodified; but for an input that parses as valid JSON without being an
object (a JSON array or a bare scalar) the step instead crashes with an
uncaught `AttributeError` rather than returning MalformedResponse. -/
theorem c1_malformed_or_crash :
    (∀ raw : String, json_loads raw = none →
      parseStep raw = ParseOutcome.malformed raw) ∧
    (∀ (raw : String) (v : JsonValue), json_loads raw = some v →
      (∀ kvs, v ≠ JsonValue.obj kvs) →
      parseStep raw = ParseOutcome.attributeError) := by
  constructor
  · intro raw h
    unfold parseStep
    rw [h]
  · intro raw v h hv
    unfold parseStep
    rw [h]
    cases v with
    | obj kvs => exact absurd rfl (hv kvs)
    | _ => rfl

/-- C1, witness: the amended statement applied to the unparsable text `?`
and to the JSON array `[1]`. -/
theorem c1_witness :
    parseStep "?" = ParseOutcome.malformed "?" ∧
    parseStep "[1]" = ParseOutcome.attributeError :=
  ⟨c1_malformed_or_crash.1 "?" rfl,
   c1_malformed_or_crash.2 "[1]" (JsonValue.arr [JsonValue.num 1]) rfl
     (fun _ h => JsonValue.noConfusion h)⟩

/-- C2: for every JSON object missing one or more of the four expected keys
the parse step succeeds and substitutes the documented per-field default —
`"N/A"` for the match percentage, the empty sequence for missing keywords,
the placeholder for the profile summary, the empty sequence for
suggestions — and in particular Scenario 2's input yields a report with
match percentage `"40%"` and the other three fields defaulted. -/
theorem c2_missing_keys_defaults :
    (∀ kvs, dictGet kvs "JD Match" = none →
      (mkReport kvs).matchPercentage = JsonValue.str "N/A") ∧
    (∀ kvs, dictGet kvs "MissingKeywords" = none →
      (mkReport kvs).missingKeywords = JsonValue.arr []) ∧
    (∀ kvs, dictGet kvs "ProfileSummary" = none →
      (mkReport kvs).profileSummary = JsonValue.str defaultProfileSummary) ∧
    (∀ kvs, dictGet kvs "Suggestions" = none →
      (mkReport kvs).suggestions = JsonValue.arr []) ∧
    parseStep scenario2Raw =
      ParseOutcome.report (AnalysisReport.mk (JsonValue.str "40%")
        (JsonValue.arr []) (JsonValue.str defaultProfileSummary)
        (JsonValue.arr [])) := by
  refine ⟨?_, ?_, ?_, ?_, rfl⟩ <;> · intro kvs h; simp [mkReport, h]

/-- C2, witness: the four defaulting statements applied to the empty JSON
object. -/
theorem c2_witness :
    (mkReport []).matchPercentage = JsonValue.str "N/A" ∧
    (mkReport []).missingKeywords = JsonValue.arr [] ∧
    (mkReport []).profileSummary = JsonValue.str defaultProfileSummary ∧
    (mkReport []).suggestions = JsonValue.arr [] :=
  ⟨c2_missing_keys_defaults.1 [] rfl,
   c2_missing_keys_defaults.2.1 [] rfl,
   c2_missing_keys_defaults.2.2.1 [] rfl,
   c2_missing_keys_defaults.2.2.2.1 [] rfl⟩

/-- C3: parsing the complete well-formed response of Scenario 1 yields an
AnalysisReport whose four fields equal exactly the four transmitted values,
with the two sequences in the model's output order. -/
theorem c3_scenario1 :
    parseStep scenario1Raw =
      ParseOutcome.report (AnalysisReport.mk (JsonValue.str "85%")
        (JsonValue.arr [JsonValue.str "Kubernetes", JsonValue.str "gRPC"])
        (JsonValue.str "Strong backend profile.")
        (JsonValue.arr [JsonValue.str "Add cloud certs"])) := rfl

/-- C4: for every raw text that fails JSON parsing the parse step signals
MalformedResponse without raising an unrecoverable error, carrying the
original input unchanged for caller-side display; Scenario 3's text
`not json at all` is such an input. -/
theorem c4_decode_error_malformed :
    (∀ raw : String, json_loads raw = none →
      parseStep raw = ParseOutcome.malformed raw) ∧
    json_loads scenario3Raw = none ∧
    parseStep scenario3Raw = ParseOutcome.malformed scenario3Raw := by
  refine ⟨?_, rfl, rfl⟩
  intro raw h
  unfold parseStep
  rw [h]

/-- C4, witness: the universally quantified part applied to the unparsable
raw text `x`. -/
theorem c4_witness : parseStep "x" = ParseOutcome.malformed "x" :=
  c4_decode_error_malformed.1 "x" rfl

/-- C5: whenever the concatenated page text extracted from the uploaded
document is empty, the submission halts with the extraction error, for
every completion collaborator alike — the completion client is never
invoked. -/
theorem c5_empty_extraction_halts :
    ∀ (jd : String) (ps : List (Option String)) (g g' : String → GroqOutcome),
      pyStrip jd ≠ "" → concatPages ps = "" →
      submitHandler jd (some (PdfFile.pages ps)) g = PipelineOutcome.extractionError ∧
      submitHandler jd (some (PdfFile.pages ps)) g =
        submitHandler jd (some (PdfFile.pages ps)) g' := by
  intro jd ps g g' hjd hps
  have hext : input_pdf_text (PdfFile.pages ps) = none := by
    simp [input_pdf_text, hps]
  constructor <;> simp [submitHandler, hjd, hext]

/-- C5, witness: a two-page document whose pages extract to `None` and the
empty string. -/
theorem c5_witness :
    submitHandler "senior dev" (some (PdfFile.pages [none, some ""]))
      (fun _ => GroqOutcome.completion ["ok"]) = PipelineOutcome.extractionError :=
  (c5_empty_extraction_halts "senior dev" [none, some ""]
    (fun _ => GroqOutcome.completion ["ok"]) (fun _ => GroqOutcome.apiError)
    (by decide) rfl).1

/-- C6: whenever the completion call raises or its response carries no
usable choice (`get_groq_response` returns the absence signal), the
submission halts with the recoverable completion error and no
AnalysisReport outcome is produced. -/
theorem c6_completion_failure :
    ∀ (jd : String) (f : PdfFile) (text prompt : String)
      (g : String → GroqOutcome),
      pyStrip jd ≠ "" → input_pdf_text f = some text →
      formatPrompt text jd = some prompt →
      get_groq_response (g prompt) = none →
      submitHandler jd (some f) g = PipelineOutcome.completionError ∧
      ∀ o, submitHandler jd (some f) g ≠ PipelineOutcome.result o := by
  intro jd f text prompt g hjd hext hfmt hresp
  have h : submitHandler jd (some f) g = PipelineOutcome.completionError := by
    simp [submitHandler, hjd, hext, afterExtraction, hfmt, hresp]
  exact ⟨h, fun o ho =>
    PipelineOutcome.noConfusion (h ▸ ho :
      PipelineOutcome.completionError = PipelineOutcome.result o)⟩

/-- C6, witness: a response whose choice list is empty. -/
theorem c6_witness :
    submitHandler "jd" (some (PdfFile.pages [some "resume"]))
      (fun _ => GroqOutcome.completion []) = PipelineOutcome.completionError :=
  (c6_completion_failure "jd" (PdfFile.pages [some "resume"]) "resume" _
    (fun _ => GroqOutcome.completion []) (by decide) rfl rfl rfl).1

/-- C7: for all non-empty resume text and job description strings the
prompt substitution succeeds (never raises), even though the fixed
instructional skeleton contains literal braces and regardless of braces in
either input. -/
theorem c7_format_total :
    ∀ text jd : String, text ≠ "" → jd ≠ "" →
      ∃ s, formatPrompt text jd = some s := by
  intro text jd _ _
  exact formatPrompt_isSome text jd

/-- C7, witness: both inputs non-empty and riddled with literal braces. -/
theorem c7_witness :
    ("R\x7b\x7d" ≠ "") ∧ ("J\x7b" ≠ "") ∧
    ∃ s, formatPrompt "R\x7b\x7d" "J\x7b" = some s :=
  ⟨by decide, by decide, c7_format_total "R\x7b\x7d" "J\x7b" (by decide) (by decide)⟩

/-- C8: the parse step is deterministic on well-formed input — any two runs
on the same raw text that produce reports produce structurally equal
reports. -/
theorem c8_parse_deterministic :
    ∀ (raw : String) (r1 r2 : AnalysisReport),
      parseStep raw = ParseOutcome.report r1 →
      parseStep raw = ParseOutcome.report r2 → r1 = r2 := by
  intro raw r1 r2 h1 h2
  rw [h1] at h2
  injection h2

/-- C8, witness: two parses of Scenario 2's raw text agree. -/
theorem c8_witness :
    AnalysisReport.mk (JsonValue.str "40%") (JsonValue.arr [])
      (JsonValue.str defaultProfileSummary) (JsonValue.arr []) =
    AnalysisReport.mk (JsonValue.str "40%") (JsonValue.arr [])
      (JsonValue.str defaultProfileSummary) (JsonValue.arr []) :=
  c8_parse_deterministic scenario2Raw _ _ rfl rfl

/-- C9: each of the four fields present in a successfully parsed JSON
object is passed through to the report as-is, whatever value (of whatever
JSON type) the object holds under the key; and a parsed object always
produces the report built by these lookups. -/
theorem c9_passthrough :
    (∀ kvs v, dictGet kvs "JD Match" = some v →
      (mkReport kvs).matchPercentage = v) ∧
    (∀ kvs v, dictGet kvs "MissingKeywords" = some v →
      (mkReport kvs).missingKeywords = v) ∧
    (∀ kvs v, dictGet kvs "ProfileSummary" = some v →
      (mkReport kvs).profileSummary = v) ∧
    (∀ kvs v, dictGet kvs "Suggestions" = some v →
      (mkReport kvs).suggestions = v) ∧
    (∀ (raw : String) (kvs : List (String × JsonValue)),
      json_loads raw = some (JsonValue.obj kvs) →
      parseStep raw = ParseOutcome.report (mkReport kvs)) := by
  refine ⟨?_, ?_, ?_, ?_, ?_⟩
  · intro kvs v h; simp [mkReport, h]
  · intro kvs v h; simp [mkReport, h]
  · intro kvs v h; simp [mkReport, h]
  · intro kvs v h; simp [mkReport, h]
  · intro raw kvs h
    unfold parseStep
    rw [h]

/-- C9, witness: a number under `"JD Match"` (instead of a string) appears
unchanged in the report. -/
theorem c9_witness :
    (mkReport [("JD Match", JsonValue.num 85)]).matchPercentage =
      JsonValue.num 85 :=
  c9_passthrough.1 [("JD Match", JsonValue.num 85)] (JsonValue.num 85) rfl

/-- C10: for every uploaded document whose concatenated page text is
non-empty but pure whitespace, the extraction adapter returns the empty
string rather than the absence signal, so the submission does not halt with
the extraction error and proceeds past prompt compilation (with empty
resume text) into the completion call. -/
theorem c10_whitespace_only_proceeds :
    ∀ (ps : List (Option String)) (jd : String) (g : String → GroqOutcome),
      concatPages ps ≠ "" → (concatPages ps).data.all isPySpace = true →
      pyStrip jd ≠ "" →
      input_pdf_text (PdfFile.pages ps) = some "" ∧
      submitHandler jd (some (PdfFile.pages ps)) g = afterExtraction "" jd g ∧
      submitHandler jd (some (PdfFile.pages ps)) g ≠
        PipelineOutcome.extractionError := by
  intro ps jd g hne hws hjd
  have hext : input_pdf_text (PdfFile.pages ps) = some "" := by
    simp [input_pdf_text, hne, pyStrip_eq_empty _ hws]
  refine ⟨hext, ?_, ?_⟩
  · simp [submitHandler, hjd, hext]
  · simp only [submitHandler, hjd, hext, if_neg hjd]
    exact afterExtraction_not_extractionError "" jd g

/-- C10, witness: a single page extracting to whitespace. -/
theorem c10_witness :
    input_pdf_text (PdfFile.pages [some " \n "]) = some "" ∧
    submitHandler "jd" (some (PdfFile.pages [some " \n "]))
      (fun _ => GroqOutcome.apiError) =
      afterExtraction "" "jd" (fun _ => GroqOutcome.apiError) ∧
    submitHandler "jd" (some (PdfFile.pages [some " \n "]))
      (fun _ => GroqOutcome.apiError) ≠ PipelineOutcome.extractionError :=
  c10_whitespace_only_proceeds [some " \n "] "jd" (fun _ => GroqOutcome.apiError)
    (by decide) (by decide) (by decide)

end ResumeXpert
